import Mathlib

/-
Verification of the workflow-graph construction and compilation engine
underlying the WGSSomaticGATK pipeline (janis_pipelines/wgs_somatic_gatk).

The repository source (src/janis_pipelines/wgs_somatic_gatk/wgssomaticgatk.py)
is a declarative pipeline definition written against a workflow framework
(graph builder, scatter planner, validator, descriptor emitter).  The
framework itself is not part of the repository sources, so its data model and
operations are modelled here from the specification; the concrete
WGSSomaticGATK graph (inputs, steps, bindings, scatter directives, outputs)
is translated directly from the pipeline source file.
-/

set_option autoImplicit false

namespace Janis

/-- Modelled from the spec: the Type component of the framework (missing from
src/): a tag (primitive kind, array-of, optional-of) plus, for array/optional,
a nested Type.  Composite file types (Fasta, Vcf, Bam, ...) only matter as
named primitive kinds. -/
inductive JType where
  | prim (name : String)
  | array (t : JType)
  | optional (t : JType)
  deriving DecidableEq, Repr

/-- Modelled from the spec: `wrapArray`, iterated `n` times (one array layer
per scattered dimension). -/
def wrapArrayN : Nat → JType → JType
  | 0, t => t
  | n + 1, t => JType.array (wrapArrayN n t)

/-- Whether a type is an optional-wrapped type. -/
def isOptionalT : JType → Bool
  | JType.optional _ => true
  | _ => false

/-- Modelled from the spec: the type-compatibility rule of the Type System
(missing from src/): a producer type is compatible with a consumer type if
they are identical, or the producer is `T` and the consumer `optional<T>`.
No implicit numeric or string coercion. -/
def isCompatible (p c : JType) : Bool :=
  if p = c then true
  else
    match c with
    | JType.optional t => decide (p = t)
    | _ => false

/-- Modelled from the spec: a Connection Source — a reference to a producing
output Port of another Step, a Workflow-level input, a reference to a Step
itself (resolving to its unique output), or a literal value. -/
inductive Source where
  | workflowInput (name : String)
  | stepOutput (step : String) (port : String)
  | stepRef (step : String)
  | litStr (s : String)
  | nullLit
  deriving DecidableEq, Repr

/-- Modelled from the spec: an input-port declaration of a Step Descriptor or
Workflow boundary: name, Type and optionality. -/
structure PortDecl where
  name : String
  type : JType
  required : Bool
  deriving DecidableEq, Repr

/-- Modelled from the spec: a Step Descriptor — an opaque, externally supplied
schema: name, fixed input port list, fixed output port list. -/
structure Descriptor where
  name : String
  inputs : List PortDecl
  outputs : List (String × JType)
  deriving DecidableEq, Repr

/-- Modelled from the spec: the merge policy of a Scatter Directive: lock-step
("dot" pairing) versus cross-product. -/
inductive ScatterMethod where
  | dot
  | cross
  deriving DecidableEq, Repr

/-- Modelled from the spec: a Scatter Directive attached to a Step: the subset
of input-port names that are scattered and the merge policy. -/
structure ScatterDirective where
  ports : List String
  method : ScatterMethod
  deriving DecidableEq, Repr

/-- Modelled from the spec: the scatter argument accepted by a step
declaration: a single port name as a bare string, a list of port names
(lock-step by default), or an explicit directive with a merge policy. -/
inductive ScatterInput where
  | single (p : String)
  | several (ps : List String)
  | described (ps : List String) (m : ScatterMethod)
  deriving DecidableEq, Repr

/-- Modelled from the spec: normalisation of a scatter argument to a Scatter
Directive; a bare string or a plain list mean lock-step. -/
def normalizeScatter : ScatterInput → ScatterDirective
  | ScatterInput.single p => ⟨[p], ScatterMethod.dot⟩
  | ScatterInput.several ps => ⟨ps, ScatterMethod.dot⟩
  | ScatterInput.described ps m => ⟨ps, m⟩

/-- Modelled from the spec: a Step — a node with a unique name, a reference to
its Step Descriptor, a mapping from input-port names to Sources, and zero or
one Scatter Directive. -/
structure Step where
  name : String
  descriptor : Descriptor
  bindings : List (String × Source)
  scatter : Option ScatterDirective
  deriving DecidableEq, Repr

/-- Modelled from the spec: a declared workflow output: a name, the bound
Source, and the export-path metadata (an optional logical folder/name hint)
recorded and passed through unchanged. -/
structure OutputDecl where
  name : String
  source : Source
  output_folder : List Source
  output_name : Option Source
  deriving DecidableEq, Repr

/-- Modelled from the spec: a Workflow (under construction or finalized): a
name, declared input ports, Steps, and declared output ports each bound to a
Source. -/
structure WorkflowB where
  name : String
  inputs : List PortDecl
  steps : List Step
  outputs : List OutputDecl
  deriving DecidableEq, Repr

/-- An empty workflow under construction, as produced by `WorkflowBuilder`. -/
def WorkflowBuilder (name : String) : WorkflowB :=
  ⟨name, [], [], []⟩

/-- Modelled from the spec: the error kinds of the engine. -/
inductive JErr where
  | duplicateName (n : String)
  | unknownPort (n : String)
  | unknownSource (n : String)
  | typeError (n : String)
  | scatterError (n : String)
  | cycleError (ns : List String)
  | emitError (n : String)
  deriving DecidableEq, Repr

/-- Modelled from the spec: the aggregated `ValidationError` raised by
`finalize`, enumerating every independent violation found. -/
structure ValidationError where
  errors : List JErr
  deriving DecidableEq, Repr

/-- Look up a registered Step by name. -/
def lookupStep (w : WorkflowB) (s : String) : Option Step :=
  w.steps.find? (fun st => st.name == s)

/-- Modelled from the spec: the Scatter Planner rewrite of a Step's effective
output Types: each output Type is wrapped in one array layer per scattered
dimension — one for lock-step, one per scattered port for cross-product. -/
def effectiveOutputType (st : Step) (t : JType) : JType :=
  match st.scatter with
  | none => t
  | some sd =>
    match sd.method with
    | ScatterMethod.dot => JType.array t
    | ScatterMethod.cross => wrapArrayN sd.ports.length t

/-- Modelled from the spec: eager resolution of a Source to the Type it
produces, against an explicit `(stepName, portName) -> Port` lookup populated
at declaration time.  A reference to a Step itself resolves to that Step's
unique output port and is well-defined exactly when the descriptor has
exactly one output. -/
def resolveSource (w : WorkflowB) : Source → Except JErr JType
  | Source.workflowInput n =>
    match w.inputs.find? (fun i => i.name == n) with
    | some i => Except.ok i.type
    | none => Except.error (JErr.unknownSource n)
  | Source.stepOutput s p =>
    match lookupStep w s with
    | none => Except.error (JErr.unknownSource s)
    | some st =>
      match st.descriptor.outputs.find? (fun o => o.fst == p) with
      | none => Except.error (JErr.unknownSource (s ++ "." ++ p))
      | some o => Except.ok (effectiveOutputType st o.snd)
  | Source.stepRef s =>
    match lookupStep w s with
    | none => Except.error (JErr.unknownSource s)
    | some st =>
      match st.descriptor.outputs with
      | [o] => Except.ok (effectiveOutputType st o.snd)
      | _ => Except.error (JErr.unknownSource s)
  | Source.litStr _ => Except.ok (JType.prim "String")
  | Source.nullLit => Except.ok (JType.optional (JType.prim "String"))

/-- Whether `n` is an input port of descriptor `d`. -/
def hasInput (d : Descriptor) (n : String) : Bool :=
  d.inputs.any (fun i => i.name == n)

/-- The Source bound to input port `p`, if any. -/
def boundSource (bs : List (String × Source)) (p : String) : Option Source :=
  (bs.find? (fun b => b.fst == p)).map (fun b => b.snd)

/-- Whether the Source bound to scattered port `p` resolves to an array type. -/
def sourceIsArray (w : WorkflowB) (bs : List (String × Source)) (p : String) : Bool :=
  match boundSource bs p with
  | none => false
  | some src =>
    match resolveSource w src with
    | Except.ok (JType.array _) => true
    | _ => false

/-- Modelled from the spec: the Scatter Planner check — the first scattered
port that is not an input of the descriptor or whose Source does not resolve
to an array type; array lengths are never statically checked. -/
def scatterBadPort (w : WorkflowB) (d : Descriptor) (bs : List (String × Source))
    (sd : ScatterDirective) : Option String :=
  sd.ports.find? (fun p => !(hasInput d p && sourceIsArray w bs p))

/-- The scatter check lifted to an optional directive. -/
def scatterBadPortOf (w : WorkflowB) (d : Descriptor) (bs : List (String × Source)) :
    Option ScatterDirective → Option String
  | none => none
  | some sd => scatterBadPort w d bs sd

/-- The scattered port names of an optional directive. -/
def scatterPortsOf : Option ScatterDirective → List String
  | none => []
  | some sd => sd.ports

/-- Modelled from the spec: the per-scattered-port compatibility check after
scatter resolution: a producer `array<T>` feeds a consumer expecting `T` at a
scattered port (the array case is guaranteed by the scatter check). -/
def scatteredOk (src pt : JType) : Bool :=
  match src with
  | JType.array el => isCompatible el pt
  | _ => true

/-- Modelled from the spec: type compatibility of one binding, accounting for
scatter unwrapping; a null literal is accepted exactly at an optional port. -/
def bindingTypeOk (w : WorkflowB) (d : Descriptor) (sps : List String)
    (b : String × Source) : Bool :=
  match d.inputs.find? (fun i => i.name == b.fst) with
  | none => true
  | some port =>
    match b.snd with
    | Source.nullLit => isOptionalT port.type
    | src =>
      match resolveSource w src with
      | Except.error _ => false
      | Except.ok pt =>
        if sps.contains b.fst then scatteredOk pt port.type
        else isCompatible pt port.type

/-- The first binding failing the type check, if any. -/
def bindingsTypeErr (w : WorkflowB) (d : Descriptor) (sps : List String)
    (bs : List (String × Source)) : Option String :=
  (bs.find? (fun b => !(bindingTypeOk w d sps b))).map (fun b => b.fst)

/-- Modelled from the spec: `declareInput(name, type)` of the Graph Builder
(missing from src/): fails with `DuplicateNameError` if the name is already
used at this scope; an input port is required exactly when its type is not
optional. -/
def declareInput (w : WorkflowB) (name : String) (t : JType) : Except JErr WorkflowB :=
  if w.inputs.any (fun i => i.name == name) then Except.error (JErr.duplicateName name)
  else Except.ok { w with inputs := w.inputs ++ [⟨name, t, !(isOptionalT t)⟩] }

/-- Modelled from the spec: `declareStep(name, descriptor, bindings, scatter?)`
of the Graph Builder (missing from src/): every binding name must be an input
port of the descriptor (`UnknownPortError` otherwise), the step name must be
fresh (`DuplicateNameError`), scattered ports must name descriptor inputs
whose Sources resolve to arrays (`ScatterError`), and every bound Source must
be type-compatible after scatter unwrapping (`TypeError`).  On success the
Step and its Connections are registered into the Workflow under construction;
on failure the Workflow is unchanged. -/
def declareStep (w : WorkflowB) (name : String) (d : Descriptor)
    (bs : List (String × Source)) (sc : Option ScatterInput) : Except JErr WorkflowB :=
  match bs.find? (fun b => !(hasInput d b.fst)) with
  | some b => Except.error (JErr.unknownPort b.fst)
  | none =>
    if w.steps.any (fun st => st.name == name) then Except.error (JErr.duplicateName name)
    else
      let sd := sc.map normalizeScatter
      match scatterBadPortOf w d bs sd with
      | some p => Except.error (JErr.scatterError p)
      | none =>
        match bindingsTypeErr w d (scatterPortsOf sd) bs with
        | some n => Except.error (JErr.typeError (name ++ "." ++ n))
        | none => Except.ok { w with steps := w.steps ++ [⟨name, d, bs, sd⟩] }

/-- Modelled from the spec: `declareOutput(name, source, exportPath?)` of the
Graph Builder (missing from src/): binds a workflow-level output to a Source;
fails with `UnknownSourceError` if the Source does not resolve to an existing
Port; the export-path hint is recorded unchanged. -/
def declareOutput (w : WorkflowB) (name : String) (source : Source)
    (folder : List Source) (oname : Option Source) : Except JErr WorkflowB :=
  match resolveSource w source with
  | Except.error e => Except.error e
  | Except.ok _ =>
    Except.ok { w with outputs := w.outputs ++ [⟨name, source, folder, oname⟩] }

/-- The step names a Source refers to. -/
def sourceDeps : Source → List String
  | Source.stepOutput s _ => [s]
  | Source.stepRef s => [s]
  | _ => []

/-- The step names a Step directly consumes from. -/
def stepDeps (st : Step) : List String :=
  (st.bindings.map (fun b => sourceDeps b.snd)).flatten

/-- Direct dependencies of the step with the given name. -/
def depsOfName (w : WorkflowB) (n : String) : List String :=
  match lookupStep w n with
  | some st => stepDeps st
  | none => []

/-- Bounded reachability over the Step/Connection relation: whether `goal` is
reachable from the frontier within `fuel` edge expansions. -/
def reachesB (w : WorkflowB) : Nat → List String → String → Bool
  | 0, _, _ => false
  | Nat.succ f, frontier, goal =>
    frontier.contains goal ||
      reachesB w f ((frontier.map (depsOfName w)).flatten) goal

/-- Whether a Step transitively consumes its own output. -/
def stepInCycle (w : WorkflowB) (st : Step) : Bool :=
  reachesB w (w.steps.length + 1) (stepDeps st) st.name

/-- Modelled from the spec: the DAG invariant — no Step may (transitively)
consume its own output. -/
def isAcyclic (w : WorkflowB) : Bool :=
  w.steps.all (fun st => !(stepInCycle w st))

/-- Validator pass 1: cycle detection, reporting the member step names. -/
def cycleErrors (w : WorkflowB) : List JErr :=
  if isAcyclic w then []
  else [JErr.cycleError ((w.steps.filter (fun st => stepInCycle w st)).map (fun st => st.name))]

/-- Whether a Source resolves against the workflow. -/
def sourceResolves (w : WorkflowB) (s : Source) : Bool :=
  match resolveSource w s with
  | Except.ok _ => true
  | Except.error _ => false

/-- Validator pass 2 (per step): every required input Port must have a bound
Source. -/
def stepCoverageErrors (st : Step) : List JErr :=
  (st.descriptor.inputs.filter
      (fun i => i.required && (boundSource st.bindings i.name).isNone)).map
    (fun i => JErr.unknownSource (st.name ++ "." ++ i.name))

/-- Validator pass 2 (outputs): every declared workflow output must have a
resolvable Source. -/
def outputCoverageErrors (w : WorkflowB) : List JErr :=
  (w.outputs.filter (fun o => !(sourceResolves w o.source))).map
    (fun o => JErr.unknownSource o.name)

/-- Validator pass 2: required-input coverage. -/
def coverageErrors (w : WorkflowB) : List JErr :=
  (w.steps.map stepCoverageErrors).flatten ++ outputCoverageErrors w

/-- Validator pass 3 (per step): scatter consistency and type-compatibility
re-check across every Connection, accounting for scatter unwrapping, and
unknown binding names. -/
def stepConnErrors (w : WorkflowB) (st : Step) : List JErr :=
  ((scatterPortsOf st.scatter).filter
      (fun p => !(hasInput st.descriptor p && sourceIsArray w st.bindings p))).map
    (fun p => JErr.scatterError p)
  ++ (st.bindings.filter
        (fun b => !(bindingTypeOk w st.descriptor (scatterPortsOf st.scatter) b))).map
      (fun b => JErr.typeError (st.name ++ "." ++ b.fst))
  ++ (st.bindings.filter (fun b => !(hasInput st.descriptor b.fst))).map
      (fun b => JErr.unknownPort b.fst)

/-- Validator pass 3: connection checks for every Step. -/
def connErrors (w : WorkflowB) : List JErr :=
  (w.steps.map (stepConnErrors w)).flatten

/-- The first duplicated name in a list, if any. -/
def firstDup : List String → Option String
  | [] => none
  | n :: t => if t.contains n then some n else firstDup t

/-- Validator pass 4: uniqueness of Step, input and output names within each
scope. -/
def uniqueErrors (w : WorkflowB) : List JErr :=
  (match firstDup (w.steps.map (fun st => st.name)) with
   | some n => [JErr.duplicateName n]
   | none => [])
  ++ (match firstDup (w.inputs.map (fun i => i.name)) with
      | some n => [JErr.duplicateName n]
      | none => [])
  ++ (match firstDup (w.outputs.map (fun o => o.name)) with
      | some n => [JErr.duplicateName n]
      | none => [])

/-- Modelled from the spec: the whole-graph Validator (missing from src/):
runs, in order, cycle detection, required-input coverage, per-connection
scatter/type re-checks, and name uniqueness, collecting all violations. -/
def validateW (w : WorkflowB) : List JErr :=
  cycleErrors w ++ coverageErrors w ++ connErrors w ++ uniqueErrors w

/-- Modelled from the spec: `finalize()` (missing from src/): runs the
Validator and fails with a single aggregated `ValidationError` enumerating
every violation found; only if the collected error set is empty does the
frozen Workflow come back. -/
def finalize (w : WorkflowB) : Except ValidationError WorkflowB :=
  match validateW w with
  | [] => Except.ok w
  | e :: es => Except.error ⟨e :: es⟩

/-- A `mapM` for `Except`, written as a plain recursion. -/
def mapExc {α β ε : Type} (f : α → Except ε β) : List α → Except ε (List β)
  | [] => Except.ok []
  | a :: t =>
    match f a, mapExc f t with
    | Except.ok b, Except.ok bs => Except.ok (b :: bs)
    | Except.error e, _ => Except.error e
    | Except.ok _, Except.error e => Except.error e

/-- One descriptor output port derived from a declared workflow output: its
declared name, typed by resolving its Source. -/
def outputEntry (w : WorkflowB) (o : OutputDecl) : Except JErr (String × JType) :=
  match resolveSource w o.source with
  | Except.error e => Except.error e
  | Except.ok t => Except.ok (o.name, t)

/-- Modelled from the spec: the Subworkflow Inliner/Linker view of a finalized
Workflow as a Step Descriptor (missing from src/): its declared inputs become
the descriptor's input ports and its declared outputs become the descriptor's
output ports, typed by resolving each output's Source. -/
def workflowAsDescriptor (w : WorkflowB) : Except JErr Descriptor :=
  match mapExc (outputEntry w) w.outputs with
  | Except.error e => Except.error e
  | Except.ok outs => Except.ok ⟨w.name, w.inputs, outs⟩

/-- The effective output type a declared workflow output resolves to. -/
def outputType (w : WorkflowB) (name : String) : Option JType :=
  match w.outputs.find? (fun o => o.name == name) with
  | none => none
  | some o =>
    match resolveSource w o.source with
    | Except.ok t => some t
    | Except.error _ => none

/-- The output-port names a step's descriptor exposes to the parent graph. -/
def stepOutputNames (w : WorkflowB) (s : String) : Option (List String) :=
  (lookupStep w s).map (fun st => st.descriptor.outputs.map (fun o => o.fst))

/-! ### Step Descriptors of the tools used by the pipeline

The tool catalogue is an external collaborator of this repository, consumed
through the narrow descriptor interface; the schemas below are modelled from
the spec's Step Descriptor supply interface (`(id, version) -> {inputs,
outputs}`), restricted to the ports the pipeline source binds, scatters and
consumes. -/

/-- Modelled from the spec: descriptor of the FastQC_0_11_5 tool (external
catalogue, missing from src/). -/
def FastQC_0_11_5 : Descriptor :=
  ⟨"fastqc",
   [⟨"reads", JType.prim "FastqGzPair", true⟩],
   [("out", JType.prim "Zip"), ("datafile", JType.prim "TextFile")]⟩

/-- Modelled from the spec: descriptor of the ParseFastqcAdaptors tool
(external catalogue, missing from src/); it has a single output port. -/
def ParseFastqcAdaptors : Descriptor :=
  ⟨"ParseFastqcAdaptors",
   [⟨"fastqc_datafiles", JType.prim "TextFile", true⟩,
    ⟨"cutadapt_adaptors_lookup", JType.optional (JType.prim "File"), false⟩],
   [("adaptor_sequences", JType.prim "String")]⟩

/-- Modelled from the spec: descriptor of the BwaAligner tool (external
catalogue, missing from src/). -/
def BwaAligner : Descriptor :=
  ⟨"BwaAligner",
   [⟨"fastq", JType.prim "FastqGzPair", true⟩,
    ⟨"reference", JType.prim "FastaWithDict", true⟩,
    ⟨"sample_name", JType.prim "String", true⟩,
    ⟨"sortsam_tmpDir", JType.optional (JType.prim "String"), false⟩,
    ⟨"cutadapt_adapter", JType.optional (JType.prim "String"), false⟩,
    ⟨"cutadapt_removeMiddle3Adapter", JType.optional (JType.prim "String"), false⟩],
   [("out", JType.prim "Bam")]⟩

/-- Modelled from the spec: descriptor of the MergeAndMarkBams_4_1_3 tool
(external catalogue, missing from src/); it has a single output port. -/
def MergeAndMarkBams_4_1_3 : Descriptor :=
  ⟨"mergeAndMarkBams",
   [⟨"bams", JType.array (JType.prim "Bam"), true⟩,
    ⟨"sampleName", JType.optional (JType.prim "String"), false⟩],
   [("out", JType.prim "Bam")]⟩

/-- Modelled from the spec: descriptor of the AnnotateDepthOfCoverage_0_1_0
tool (external catalogue, missing from src/). -/
def AnnotateDepthOfCoverage_0_1_0 : Descriptor :=
  ⟨"AnnotateDepthOfCoverage",
   [⟨"bam", JType.prim "Bam", true⟩,
    ⟨"bed", JType.prim "Bed", true⟩,
    ⟨"reference", JType.prim "FastaWithDict", true⟩,
    ⟨"sample_name", JType.prim "String", true⟩],
   [("out", JType.prim "TextFile")]⟩

/-- Modelled from the spec: descriptor of the PerformanceSummaryGenome_0_1_0
tool (external catalogue, missing from src/). -/
def PerformanceSummaryGenome_0_1_0 : Descriptor :=
  ⟨"PerformanceSummaryGenome",
   [⟨"bam", JType.prim "Bam", true⟩,
    ⟨"bed", JType.prim "Bed", true⟩,
    ⟨"sample_name", JType.prim "String", true⟩,
    ⟨"genome_file", JType.prim "TextFile", true⟩],
   [("performanceSummaryOut", JType.prim "TextFile"),
    ("geneFileOut", JType.prim "TextFile"),
    ("regionFileOut", JType.prim "TextFile")]⟩

/-- Modelled from the spec: descriptor of the GATKBaseRecalBQSRWorkflow_4_1_3
sub-workflow tool (external catalogue, missing from src/); it has a single
output port. -/
def GATKBaseRecalBQSRWorkflow_4_1_3 : Descriptor :=
  ⟨"GATKBaseRecalBQSRWorkflow",
   [⟨"bam", JType.prim "Bam", true⟩,
    ⟨"reference", JType.prim "FastaWithDict", true⟩,
    ⟨"snps_dbsnp", JType.prim "VcfTabix", true⟩,
    ⟨"snps_1000gp", JType.prim "VcfTabix", true⟩,
    ⟨"known_indels", JType.prim "VcfTabix", true⟩,
    ⟨"mills_indels", JType.prim "VcfTabix", true⟩],
   [("out", JType.prim "Bam")]⟩

/-- Modelled from the spec: descriptor of the GatkSomaticVariantCaller_4_1_3
tool (external catalogue, missing from src/). -/
def GatkSomaticVariantCaller_4_1_3 : Descriptor :=
  ⟨"GatkSomaticVariantCaller",
   [⟨"normal_bam", JType.prim "Bam", true⟩,
    ⟨"tumor_bam", JType.prim "Bam", true⟩,
    ⟨"normal_name", JType.prim "String", true⟩,
    ⟨"intervals", JType.prim "Bed", true⟩,
    ⟨"reference", JType.prim "FastaWithDict", true⟩,
    ⟨"gnomad", JType.prim "VcfTabix", true⟩,
    ⟨"panel_of_normals", JType.optional (JType.prim "VcfTabix"), false⟩],
   [("out", JType.prim "Vcf")]⟩

/-- Modelled from the spec: descriptor of the Gatk4GatherVcfs_4_1_3 tool
(external catalogue, missing from src/). -/
def Gatk4GatherVcfs_4_1_3 : Descriptor :=
  ⟨"Gatk4GatherVcfs",
   [⟨"vcfs", JType.array (JType.prim "Vcf"), true⟩],
   [("out", JType.prim "Vcf")]⟩

/-- Modelled from the spec: descriptor of the BGZipLatest tool (external
catalogue, missing from src/). -/
def BGZipLatest : Descriptor :=
  ⟨"bgzip",
   [⟨"file", JType.prim "Vcf", true⟩],
   [("out", JType.prim "CompressedVcf")]⟩

/-- Modelled from the spec: descriptor of the BcfToolsSort_1_9 tool (external
catalogue, missing from src/). -/
def BcfToolsSort_1_9 : Descriptor :=
  ⟨"bcftoolssort",
   [⟨"vcf", JType.prim "CompressedVcf", true⟩],
   [("out", JType.prim "CompressedVcf")]⟩

/-- Modelled from the spec: descriptor of the UncompressArchive tool (external
catalogue, missing from src/). -/
def UncompressArchive : Descriptor :=
  ⟨"UncompressArchive",
   [⟨"file", JType.prim "CompressedVcf", true⟩],
   [("out", JType.prim "Vcf")]⟩

/-- Modelled from the spec: descriptor of the AddBamStatsSomatic_0_1_0 tool
(external catalogue, missing from src/). -/
def AddBamStatsSomatic_0_1_0 : Descriptor :=
  ⟨"AddBamStatsSomatic",
   [⟨"normal_id", JType.prim "String", true⟩,
    ⟨"tumor_id", JType.prim "String", true⟩,
    ⟨"normal_bam", JType.prim "Bam", true⟩,
    ⟨"tumor_bam", JType.prim "Bam", true⟩,
    ⟨"vcf", JType.prim "Vcf", true⟩],
   [("out", JType.prim "Vcf")]⟩

/-! ### The somatic_subpipeline graph

Translated from `WGSSomaticGATK.process_subpipeline` in
src/janis_pipelines/wgs_somatic_gatk/wgssomaticgatk.py. -/

/-- The sub-workflow built by `process_subpipeline`, as the chain of builder
calls the source performs. -/
def somatic_subpipelineE : Except JErr WorkflowB := do
  let w := WorkflowBuilder "somatic_subpipeline"
  let w ← declareInput w "reference" (JType.prim "FastaWithDict")
  let w ← declareInput w "reads" (JType.array (JType.prim "FastqGzPair"))
  let w ← declareInput w "cutadapt_adapters" (JType.optional (JType.prim "File"))
  let w ← declareInput w "gene_bed" (JType.prim "Bed")
  let w ← declareInput w "genome_file" (JType.prim "TextFile")
  let w ← declareInput w "sample_name" (JType.prim "String")
  let w ← declareInput w "snps_dbsnp" (JType.prim "VcfTabix")
  let w ← declareInput w "snps_1000gp" (JType.prim "VcfTabix")
  let w ← declareInput w "known_indels" (JType.prim "VcfTabix")
  let w ← declareInput w "mills_indels" (JType.prim "VcfTabix")
  let w ← declareStep w "fastqc" FastQC_0_11_5
    [("reads", Source.workflowInput "reads")]
    (some (ScatterInput.single "reads"))
  let w ← declareStep w "getfastqc_adapters" ParseFastqcAdaptors
    [("fastqc_datafiles", Source.stepOutput "fastqc" "datafile"),
     ("cutadapt_adaptors_lookup", Source.workflowInput "cutadapt_adapters")]
    (some (ScatterInput.single "fastqc_datafiles"))
  let w ← declareStep w "align_and_sort" BwaAligner
    [("fastq", Source.workflowInput "reads"),
     ("reference", Source.workflowInput "reference"),
     ("sample_name", Source.workflowInput "sample_name"),
     ("sortsam_tmpDir", Source.nullLit),
     ("cutadapt_adapter", Source.stepRef "getfastqc_adapters"),
     ("cutadapt_removeMiddle3Adapter", Source.stepRef "getfastqc_adapters")]
    (some (ScatterInput.several ["fastq", "cutadapt_adapter", "cutadapt_removeMiddle3Adapter"]))
  let w ← declareStep w "merge_and_mark" MergeAndMarkBams_4_1_3
    [("bams", Source.stepOutput "align_and_sort" "out"),
     ("sampleName", Source.workflowInput "sample_name")] none
  let w ← declareStep w "annotate_doc" AnnotateDepthOfCoverage_0_1_0
    [("bam", Source.stepOutput "merge_and_mark" "out"),
     ("bed", Source.workflowInput "gene_bed"),
     ("reference", Source.workflowInput "reference"),
     ("sample_name", Source.workflowInput "sample_name")] none
  let w ← declareStep w "performance_summary" PerformanceSummaryGenome_0_1_0
    [("bam", Source.stepOutput "merge_and_mark" "out"),
     ("bed", Source.workflowInput "gene_bed"),
     ("sample_name", Source.workflowInput "sample_name"),
     ("genome_file", Source.workflowInput "genome_file")] none
  let w ← declareStep w "bqsr" GATKBaseRecalBQSRWorkflow_4_1_3
    [("bam", Source.stepRef "merge_and_mark"),
     ("reference", Source.workflowInput "reference"),
     ("snps_dbsnp", Source.workflowInput "snps_dbsnp"),
     ("snps_1000gp", Source.workflowInput "snps_1000gp"),
     ("known_indels", Source.workflowInput "known_indels"),
     ("mills_indels", Source.workflowInput "mills_indels")] none
  let w ← declareOutput w "out" (Source.stepOutput "bqsr" "out") [] none
  let w ← declareOutput w "reports" (Source.stepOutput "fastqc" "out") [] none
  let w ← declareOutput w "depth_of_coverage" (Source.stepOutput "annotate_doc" "out") [] none
  let w ← declareOutput w "summary"
    (Source.stepOutput "performance_summary" "performanceSummaryOut") [] none
  let w ← declareOutput w "gene_summary"
    (Source.stepOutput "performance_summary" "geneFileOut") [] none
  let w ← declareOutput w "region_summary"
    (Source.stepOutput "performance_summary" "regionFileOut") [] none
  pure w

/-- The somatic_subpipeline Workflow value. -/
def somatic_subpipeline : WorkflowB :=
  (somatic_subpipelineE.toOption).getD (WorkflowBuilder "somatic_subpipeline")

/-- The sub-workflow served as a Step Descriptor to the parent graph. -/
def somaticSubDescriptor : Descriptor :=
  ((workflowAsDescriptor somatic_subpipeline).toOption).getD ⟨"", [], []⟩

/-! ### The WGSSomaticGATK graph

Translated from `WGSSomaticGATK.constructor` in
src/janis_pipelines/wgs_somatic_gatk/wgssomaticgatk.py. -/

/-- The bindings `process_subpipeline(reads=..., sample_name=..., ...)`
passes for one sample, parameterised by the sample-specific inputs. -/
def subpipelineBindings (readsInput nameInput : String) : List (String × Source) :=
  [("reads", Source.workflowInput readsInput),
   ("sample_name", Source.workflowInput nameInput),
   ("reference", Source.workflowInput "reference"),
   ("cutadapt_adapters", Source.workflowInput "cutadapt_adapters"),
   ("gene_bed", Source.workflowInput "gene_bed"),
   ("genome_file", Source.workflowInput "genome_file"),
   ("snps_dbsnp", Source.workflowInput "snps_dbsnp"),
   ("snps_1000gp", Source.workflowInput "snps_1000gp"),
   ("known_indels", Source.workflowInput "known_indels"),
   ("mills_indels", Source.workflowInput "mills_indels")]

/-- The top-level WGSSomaticGATK workflow, as the chain of builder calls the
source performs. -/
def WGSSomaticGATKe : Except JErr WorkflowB := do
  let w := WorkflowBuilder "WGSSomaticGATK"
  let w ← declareInput w "normal_inputs" (JType.array (JType.prim "FastqGzPair"))
  let w ← declareInput w "tumor_inputs" (JType.array (JType.prim "FastqGzPair"))
  let w ← declareInput w "normal_name" (JType.prim "String")
  let w ← declareInput w "tumor_name" (JType.prim "String")
  let w ← declareInput w "cutadapt_adapters" (JType.optional (JType.prim "File"))
  let w ← declareInput w "gatk_intervals" (JType.array (JType.prim "Bed"))
  let w ← declareInput w "gene_bed" (JType.prim "Bed")
  let w ← declareInput w "genome_file" (JType.prim "TextFile")
  let w ← declareInput w "reference" (JType.prim "FastaWithDict")
  let w ← declareInput w "snps_dbsnp" (JType.prim "VcfTabix")
  let w ← declareInput w "snps_1000gp" (JType.prim "VcfTabix")
  let w ← declareInput w "known_indels" (JType.prim "VcfTabix")
  let w ← declareInput w "mills_indels" (JType.prim "VcfTabix")
  let w ← declareInput w "gnomad" (JType.prim "VcfTabix")
  let w ← declareInput w "panel_of_normals" (JType.optional (JType.prim "VcfTabix"))
  let w ← declareStep w "tumor" somaticSubDescriptor
    (subpipelineBindings "tumor_inputs" "tumor_name") none
  let w ← declareStep w "normal" somaticSubDescriptor
    (subpipelineBindings "normal_inputs" "normal_name") none
  let w ← declareStep w "vc_gatk" GatkSomaticVariantCaller_4_1_3
    [("normal_bam", Source.stepOutput "normal" "out"),
     ("tumor_bam", Source.stepOutput "tumor" "out"),
     ("normal_name", Source.workflowInput "normal_name"),
     ("intervals", Source.workflowInput "gatk_intervals"),
     ("reference", Source.workflowInput "reference"),
     ("gnomad", Source.workflowInput "gnomad"),
     ("panel_of_normals", Source.workflowInput "panel_of_normals")]
    (some (ScatterInput.single "intervals"))
  let w ← declareStep w "vc_gatk_merge" Gatk4GatherVcfs_4_1_3
    [("vcfs", Source.stepOutput "vc_gatk" "out")] none
  let w ← declareStep w "compressvcf" BGZipLatest
    [("file", Source.stepOutput "vc_gatk_merge" "out")] none
  let w ← declareStep w "sort_combined" BcfToolsSort_1_9
    [("vcf", Source.stepOutput "compressvcf" "out")] none
  let w ← declareStep w "uncompressvcf" UncompressArchive
    [("file", Source.stepOutput "sort_combined" "out")] none
  let w ← declareStep w "addbamstats" AddBamStatsSomatic_0_1_0
    [("normal_id", Source.workflowInput "normal_name"),
     ("tumor_id", Source.workflowInput "tumor_name"),
     ("normal_bam", Source.stepOutput "normal" "out"),
     ("tumor_bam", Source.stepOutput "tumor" "out"),
     ("vcf", Source.stepOutput "uncompressvcf" "out")] none
  let w ← declareOutput w "normal_bam" (Source.stepOutput "normal" "out")
    [Source.litStr "bams"] (some (Source.workflowInput "normal_name"))
  let w ← declareOutput w "tumor_bam" (Source.stepOutput "tumor" "out")
    [Source.litStr "bams"] (some (Source.workflowInput "tumor_name"))
  let w ← declareOutput w "normal_report" (Source.stepOutput "normal" "reports")
    [Source.litStr "reports"] none
  let w ← declareOutput w "tumor_report" (Source.stepOutput "tumor" "reports")
    [Source.litStr "reports"] none
  let w ← declareOutput w "normal_doc" (Source.stepOutput "normal" "depth_of_coverage")
    [Source.litStr "summary", Source.workflowInput "normal_name"] none
  let w ← declareOutput w "tumor_doc" (Source.stepOutput "tumor" "depth_of_coverage")
    [Source.litStr "summary", Source.workflowInput "tumor_name"] none
  let w ← declareOutput w "normal_summary" (Source.stepOutput "normal" "summary")
    [Source.litStr "summary", Source.workflowInput "normal_name"] none
  let w ← declareOutput w "tumor_summary" (Source.stepOutput "tumor" "summary")
    [Source.litStr "summary", Source.workflowInput "tumor_name"] none
  let w ← declareOutput w "normal_gene_summary" (Source.stepOutput "normal" "gene_summary")
    [Source.litStr "summary", Source.workflowInput "normal_name"] none
  let w ← declareOutput w "tumor_gene_summary" (Source.stepOutput "tumor" "gene_summary")
    [Source.litStr "summary", Source.workflowInput "tumor_name"] none
  let w ← declareOutput w "normal_region_summary" (Source.stepOutput "normal" "region_summary")
    [Source.litStr "summary", Source.workflowInput "normal_name"] none
  let w ← declareOutput w "tumor_region_summary" (Source.stepOutput "tumor" "region_summary")
    [Source.litStr "summary", Source.workflowInput "tumor_name"] none
  let w ← declareOutput w "variants" (Source.stepOutput "sort_combined" "out")
    [Source.litStr "variants"] none
  let w ← declareOutput w "variants_split" (Source.stepOutput "vc_gatk" "out")
    [Source.litStr "variants", Source.litStr "byInterval"] none
  let w ← declareOutput w "variants_final" (Source.stepOutput "addbamstats" "out")
    [Source.litStr "variants"] none
  pure w

/-- The WGSSomaticGATK Workflow value. -/
def WGSSomaticGATKw : WorkflowB :=
  (WGSSomaticGATKe.toOption).getD (WorkflowBuilder "WGSSomaticGATK")

/-! ### Descriptor Emitter

Modelled from the spec: two independent emitters (CWL-like and WDL-like)
share the same upstream graph and render a validated Workflow into a
structured document (keyed sections: inputs, steps, outputs); section layout
and scatter-construct spelling are target-format-defined but the document is
a lossless structural image of the Workflow. -/

/-- The two supported portable target formats. -/
inductive Format where
  | cwl
  | wdl
  deriving DecidableEq, Repr

/-- A generic structured document node (the shape of a CWL/WDL-like
document): strings, sequences and keyed mappings. -/
inductive DocNode where
  | str (s : String)
  | arr (xs : List DocNode)
  | obj (fields : List (String × DocNode))

/-- Format-specific key naming the steps section. -/
def stepsKey : Format → String
  | Format.cwl => "steps"
  | Format.wdl => "calls"

/-- Format-specific key naming a step. -/
def nameKey : Format → String
  | Format.cwl => "id"
  | Format.wdl => "call"

/-- Format-specific key referencing the step's descriptor. -/
def runKey : Format → String
  | Format.cwl => "run"
  | Format.wdl => "task"

/-- Format-specific key for the step's input bindings. -/
def insKey : Format → String
  | Format.cwl => "in"
  | Format.wdl => "inputs"

/-- Format-specific key for the scattered port list. -/
def scatterKey : Format → String
  | Format.cwl => "scatter"
  | Format.wdl => "scatter_over"

/-- Format-specific key for the scatter merge policy. -/
def methodKey : Format → String
  | Format.cwl => "scatterMethod"
  | Format.wdl => "scatter_mode"

/-- Format-specific spelling of a scatter merge policy. -/
def methodName : Format → ScatterMethod → String
  | Format.cwl, ScatterMethod.dot => "dotproduct"
  | Format.cwl, ScatterMethod.cross => "flat_crossproduct"
  | Format.wdl, ScatterMethod.dot => "dot"
  | Format.wdl, ScatterMethod.cross => "cross"

/-- Format-specific key naming one binding. -/
def bindNameKey : Format → String
  | Format.cwl => "id"
  | Format.wdl => "name"

/-- Format-specific key for a binding's source. -/
def bindSrcKey : Format → String
  | Format.cwl => "source"
  | Format.wdl => "from"

/-- Format-specific key for a workflow-input reference. -/
def srcKey : Format → String
  | Format.cwl => "source"
  | Format.wdl => "input"

/-- Format-specific key for the producing step of a connection. -/
def stepKey : Format → String
  | Format.cwl => "outputSource"
  | Format.wdl => "call"

/-- Format-specific key for the producing port of a connection. -/
def portKey : Format → String
  | Format.cwl => "outputId"
  | Format.wdl => "output"

/-- Format-specific key for a whole-step reference. -/
def refKey : Format → String
  | Format.cwl => "stepSource"
  | Format.wdl => "callRef"

/-- Format-specific key for a literal string value. -/
def litKey : Format → String
  | Format.cwl => "valueFrom"
  | Format.wdl => "value"

/-- Format-specific spelling of the null literal. -/
def nullSpell : Format → String
  | Format.cwl => "null"
  | Format.wdl => "None"

/-- Format-specific rendering of a Type (not parsed back; the structural
image of a Workflow is its step names, bindings and scatter directives). -/
def wdlTypeString : JType → String
  | JType.prim n => n
  | JType.array t => "Array[" ++ wdlTypeString t ++ "]"
  | JType.optional t => wdlTypeString t ++ "?"

/-- Format-specific rendering of a Type as a document node. -/
def emitType : Format → JType → DocNode
  | Format.cwl, JType.prim n => DocNode.str n
  | Format.cwl, JType.array t => DocNode.obj [("type", DocNode.str "array"), ("items", emitType Format.cwl t)]
  | Format.cwl, JType.optional t => DocNode.arr [DocNode.str "null", emitType Format.cwl t]
  | Format.wdl, t => DocNode.str (wdlTypeString t)

/-- Emission of one Source, with format-specific key spelling. -/
def emitSource (fmt : Format) : Source → DocNode
  | Source.workflowInput n => DocNode.obj [(srcKey fmt, DocNode.str n)]
  | Source.stepOutput s p => DocNode.obj [(stepKey fmt, DocNode.str s), (portKey fmt, DocNode.str p)]
  | Source.stepRef s => DocNode.obj [(refKey fmt, DocNode.str s)]
  | Source.litStr s => DocNode.obj [(litKey fmt, DocNode.str s)]
  | Source.nullLit => DocNode.str (nullSpell fmt)

/-- Emission of one binding. -/
def emitBinding (fmt : Format) (b : String × Source) : DocNode :=
  DocNode.obj [(bindNameKey fmt, DocNode.str b.fst), (bindSrcKey fmt, emitSource fmt b.snd)]

/-- Emission of one step-call block, with the format-specific scatter
construct appended when the step carries a Scatter Directive. -/
def emitStep (fmt : Format) (st : Step) : DocNode :=
  match st.scatter with
  | none =>
    DocNode.obj
      [(nameKey fmt, DocNode.str st.name),
       (runKey fmt, DocNode.str st.descriptor.name),
       (insKey fmt, DocNode.arr (st.bindings.map (emitBinding fmt)))]
  | some sd =>
    DocNode.obj
      [(nameKey fmt, DocNode.str st.name),
       (runKey fmt, DocNode.str st.descriptor.name),
       (insKey fmt, DocNode.arr (st.bindings.map (emitBinding fmt))),
       (scatterKey fmt, DocNode.arr (sd.ports.map DocNode.str)),
       (methodKey fmt, DocNode.str (methodName fmt sd.method))]

/-- Emission of one workflow-level input declaration. -/
def emitInput (fmt : Format) (i : PortDecl) : DocNode :=
  DocNode.obj [(bindNameKey fmt, DocNode.str i.name), ("type", emitType fmt i.type)]

/-- Emission of one workflow-level output declaration, carrying the
export-path hint through unchanged. -/
def emitOutput (fmt : Format) (o : OutputDecl) : DocNode :=
  DocNode.obj
    [(bindNameKey fmt, DocNode.str o.name),
     (bindSrcKey fmt, emitSource fmt o.source),
     ("folder", DocNode.arr (o.output_folder.map (emitSource fmt)))]

/-- Modelled from the spec: the Descriptor Emitter (missing from src/):
renders workflow-level input/output declarations and one step-call block per
Step into the target format's keyed section layout. -/
def emit (fmt : Format) (w : WorkflowB) : DocNode :=
  DocNode.obj
    [(nameKey fmt, DocNode.str w.name),
     ("inputs", DocNode.arr (w.inputs.map (emitInput fmt))),
     (stepsKey fmt, DocNode.arr (w.steps.map (emitStep fmt))),
     ("outputs", DocNode.arr (w.outputs.map (emitOutput fmt)))]

/-- A `mapM` for `Option`, written as a plain recursion. -/
def mapOpt {α β : Type} (g : β → Option α) : List β → Option (List α)
  | [] => some []
  | b :: t =>
    match g b, mapOpt g t with
    | some a, some l => some (a :: l)
    | _, _ => none

/-- Structural parsing of an emitted Source back into a Source. -/
def parseSource (fmt : Format) : DocNode → Option Source
  | DocNode.str s => if s = nullSpell fmt then some Source.nullLit else none
  | DocNode.obj [(k, DocNode.str n)] =>
    if k = srcKey fmt then some (Source.workflowInput n)
    else if k = refKey fmt then some (Source.stepRef n)
    else if k = litKey fmt then some (Source.litStr n)
    else none
  | DocNode.obj [(k1, DocNode.str s), (k2, DocNode.str p)] =>
    if k1 = stepKey fmt && k2 = portKey fmt then some (Source.stepOutput s p) else none
  | _ => none

/-- Structural parsing of an emitted binding. -/
def parseBinding (fmt : Format) : DocNode → Option (String × Source)
  | DocNode.obj [(k1, DocNode.str n), (k2, src)] =>
    if k1 = bindNameKey fmt && k2 = bindSrcKey fmt then
      (parseSource fmt src).map (fun s => (n, s))
    else none
  | _ => none

/-- Structural parsing of the scatter merge policy. -/
def parseMethod (fmt : Format) (s : String) : Option ScatterMethod :=
  if s = methodName fmt ScatterMethod.dot then some ScatterMethod.dot
  else if s = methodName fmt ScatterMethod.cross then some ScatterMethod.cross
  else none

/-- A plain string node. -/
def getStr : DocNode → Option String
  | DocNode.str s => some s
  | _ => none

/-- The structural image of one step recovered from a document: its name, its
port bindings and its scatter directive. -/
abbrev StepImage : Type :=
  String × List (String × Source) × Option ScatterDirective

/-- Structural parsing of one emitted step-call block. -/
def parseStep (fmt : Format) : DocNode → Option StepImage
  | DocNode.obj [(k1, DocNode.str n), (_k2, _), (k3, DocNode.arr ins)] =>
    if k1 = nameKey fmt && k3 = insKey fmt then
      (mapOpt (parseBinding fmt) ins).map (fun bs => (n, bs, none))
    else none
  | DocNode.obj [(k1, DocNode.str n), (_k2, _), (k3, DocNode.arr ins),
                 (k4, DocNode.arr ps), (k5, DocNode.str m)] =>
    if k1 = nameKey fmt && k3 = insKey fmt && k4 = scatterKey fmt && k5 = methodKey fmt then
      (mapOpt (parseBinding fmt) ins).bind (fun bs =>
        (mapOpt getStr ps).bind (fun ports =>
          (parseMethod fmt m).map (fun meth => (n, bs, some ⟨ports, meth⟩))))
    else none
  | _ => none

/-- Structural parsing of an emitted document back into the set of step
names, port bindings and scatter directives. -/
def parseImage (fmt : Format) (d : DocNode) : Option (List StepImage) :=
  match d with
  | DocNode.obj [_, _, (k, DocNode.arr xs), _] =>
    if k = stepsKey fmt then mapOpt (parseStep fmt) xs else none
  | _ => none

/-- The structural image of a Workflow: its step names, port bindings and
scatter directives. -/
def structuralImage (w : WorkflowB) : List StepImage :=
  w.steps.map (fun st => (st.name, st.bindings, st.scatter))

/-! ### Helper lemmas -/

/-- The function `mapOpt` inverts a `map` whenever the parser inverts the
emitter elementwise, producing the elementwise image. -/
theorem mapOpt_map {α β γ : Type} (g : β → Option γ) (f : α → β) (h : α → γ)
    (hgf : ∀ a, g (f a) = some (h a)) : ∀ l : List α, mapOpt g (l.map f) = some (l.map h)
  | [] => rfl
  | a :: t => by
    show (match g (f a), mapOpt g (t.map f) with
          | some x, some l2 => some (x :: l2)
          | _, _ => none) = some ((a :: t).map h)
    rw [hgf a, mapOpt_map g f h hgf t]
    rfl

/-- The function `mapOpt` inverts a `map` whenever the parser inverts the
emitter elementwise. -/
theorem mapOpt_map_self {α β : Type} (g : β → Option α) (f : α → β)
    (hgf : ∀ a, g (f a) = some a) (l : List α) : mapOpt g (l.map f) = some l := by
  have h := mapOpt_map g f (fun a => a) hgf l
  simpa using h

/-- The structural source parser inverts the source emitter. -/
theorem parseSource_emit (fmt : Format) (s : Source) :
    parseSource fmt (emitSource fmt s) = some s := by
  cases fmt <;> cases s <;> rfl

/-- The structural binding parser inverts the binding emitter. -/
theorem parseBinding_emit (fmt : Format) (b : String × Source) :
    parseBinding fmt (emitBinding fmt b) = some b := by
  obtain ⟨n, s⟩ := b
  cases fmt <;>
    · show (parseSource _ (emitSource _ s)).map (fun t => (n, t)) = some (n, s)
      rw [parseSource_emit]
      rfl

/-- The merge-policy parser inverts the merge-policy spelling. -/
theorem parseMethod_name (fmt : Format) (m : ScatterMethod) :
    parseMethod fmt (methodName fmt m) = some m := by
  cases fmt <;> cases m <;> rfl

/-- The structural step parser inverts the step emitter. -/
theorem parseStep_emit (fmt : Format) (st : Step) :
    parseStep fmt (emitStep fmt st) = some (st.name, st.bindings, st.scatter) := by
  obtain ⟨n, d, bs, sc⟩ := st
  have hbs : ∀ fm : Format, mapOpt (parseBinding fm) (bs.map (emitBinding fm)) = some bs :=
    fun fm => mapOpt_map_self _ _ (parseBinding_emit fm) bs
  have hps : ∀ ps : List String, mapOpt getStr (ps.map DocNode.str) = some ps :=
    fun ps => mapOpt_map_self getStr DocNode.str (fun a => rfl) ps
  cases sc with
  | none =>
    cases fmt with
    | cwl =>
      show (mapOpt (parseBinding Format.cwl) (bs.map (emitBinding Format.cwl))).map
          (fun bs2 => (n, bs2, (none : Option ScatterDirective))) = some (n, bs, none)
      rw [hbs]
      rfl
    | wdl =>
      show (mapOpt (parseBinding Format.wdl) (bs.map (emitBinding Format.wdl))).map
          (fun bs2 => (n, bs2, (none : Option ScatterDirective))) = some (n, bs, none)
      rw [hbs]
      rfl
  | some sd =>
    obtain ⟨ps, m⟩ := sd
    cases fmt with
    | cwl =>
      show (mapOpt (parseBinding Format.cwl) (bs.map (emitBinding Format.cwl))).bind (fun bs2 =>
          (mapOpt getStr (ps.map DocNode.str)).bind (fun ports =>
            (parseMethod Format.cwl (methodName Format.cwl m)).map
              (fun meth => (n, bs2, some (ScatterDirective.mk ports meth))))) =
        some (n, bs, some (ScatterDirective.mk ps m))
      rw [hbs, hps, parseMethod_name]
      rfl
    | wdl =>
      show (mapOpt (parseBinding Format.wdl) (bs.map (emitBinding Format.wdl))).bind (fun bs2 =>
          (mapOpt getStr (ps.map DocNode.str)).bind (fun ports =>
            (parseMethod Format.wdl (methodName Format.wdl m)).map
              (fun meth => (n, bs2, some (ScatterDirective.mk ports meth))))) =
        some (n, bs, some (ScatterDirective.mk ps m))
      rw [hbs, hps, parseMethod_name]
      rfl

/-- The pipeline builder chain of `process_subpipeline` succeeds and yields
the somatic_subpipeline graph. -/
theorem subpipeline_build_ok : somatic_subpipelineE = Except.ok somatic_subpipeline := rfl

/-- The pipeline builder chain of `constructor` succeeds and yields the
WGSSomaticGATK graph. -/
theorem top_build_ok : WGSSomaticGATKe = Except.ok WGSSomaticGATKw := rfl

/-- Viewing the finalized sub-workflow as a Step Descriptor succeeds. -/
theorem subDescriptor_ok :
    workflowAsDescriptor somatic_subpipeline = Except.ok somaticSubDescriptor := rfl

/-- The somatic_subpipeline graph passes the whole-graph Validator. -/
theorem finalize_sub_ok : finalize somatic_subpipeline = Except.ok somatic_subpipeline := rfl

/-- The WGSSomaticGATK graph passes the whole-graph Validator. -/
theorem finalize_top_ok : finalize WGSSomaticGATKw = Except.ok WGSSomaticGATKw := rfl

/-- A successful `finalize` means the Validator collected no violations. -/
theorem validate_nil_of_finalize_ok (w w' : WorkflowB)
    (h : finalize w = Except.ok w') : validateW w = [] := by
  unfold finalize at h
  cases hv : validateW w with
  | nil => rfl
  | cons e es => rw [hv] at h; simp at h

/-- An empty violation list contains no cycle report, so the graph is
acyclic. -/
theorem acyclic_of_validate_nil (w : WorkflowB) (h : validateW w = []) :
    isAcyclic w = true := by
  unfold validateW at h
  rcases List.append_eq_nil.mp h with ⟨hc, _⟩
  unfold cycleErrors at hc
  by_cases hA : isAcyclic w = true
  · exact hA
  · rw [if_neg hA] at hc
    cases hc

/-- Descriptor outputs derived from declared workflow outputs keep the
declared names, in order. -/
theorem mapExc_name_fst (w : WorkflowB) :
    ∀ (l : List OutputDecl) (outs : List (String × JType)),
      mapExc (outputEntry w) l = Except.ok outs →
      outs.map Prod.fst = l.map OutputDecl.name := by
  intro l
  induction l with
  | nil =>
    intro outs h
    injection h with h'
    rw [← h']
    rfl
  | cons o t ih =>
    intro outs h
    simp only [mapExc] at h
    cases he : outputEntry w o with
    | error e =>
      rw [he] at h
      cases h
    | ok p =>
      rw [he] at h
      cases hr : mapExc (outputEntry w) t with
      | error e2 => rw [hr] at h; cases h
      | ok bs =>
        rw [hr] at h
        injection h with h'
        rw [← h']
        have hname : p.fst = o.name := by
          unfold outputEntry at he
          cases hfo : resolveSource w o.source with
          | error e2 => rw [hfo] at he; cases he
          | ok ty =>
            rw [hfo] at he
            injection he with he'
            rw [← he']
        simp [hname, ih bs hr]

/-! ### Concrete test graphs used to exercise the error paths -/

/-- A step carrying a lock-step Scatter Directive over one port, used to
instantiate the scatter-wrapping law. -/
def vcGatkStep : Step :=
  (lookupStep WGSSomaticGATKw "vc_gatk").getD ⟨"", ⟨"", [], []⟩, [], none⟩

/-- The merge_and_mark step of the sub-workflow, whose descriptor has a
unique output port. -/
def mergeAndMarkStep : Step :=
  (lookupStep somatic_subpipeline "merge_and_mark").getD ⟨"", ⟨"", [], []⟩, [], none⟩

/-- A descriptor with one required input `x` and no binding for it. -/
def descD1 : Descriptor := ⟨"D1", [⟨"x", JType.prim "A", true⟩], [("o", JType.prim "A")]⟩

/-- A descriptor with one required input `y` of type `A`. -/
def descD2 : Descriptor := ⟨"D2", [⟨"y", JType.prim "A", true⟩], [("o", JType.prim "A")]⟩

/-- A workflow with two independent problems: step `s1` has an unbound
required input `x`, and step `s2` binds `y : A` to a `B`-typed workflow
input. -/
def twoProblemW : WorkflowB :=
  ⟨"bad2", [⟨"inp", JType.prim "B", true⟩],
   [⟨"s1", descD1, [], none⟩,
    ⟨"s2", descD2, [("y", Source.workflowInput "inp")], none⟩], []⟩

/-- The descriptor of the spec's `align` scenario step: one input
`fastq : FastqGzPair`, one output `bam`. -/
def alignDesc : Descriptor :=
  ⟨"align", [⟨"fastq", JType.prim "FastqGzPair", true⟩], [("bam", JType.prim "File")]⟩

/-- The spec's concrete scenario graph with the array-typed input `reads`
bound to scalar-typed port `fastq` without a Scatter Directive. -/
def alignNoScatterW : WorkflowB :=
  ⟨"alignNoScatter", [⟨"reads", JType.array (JType.prim "FastqGzPair"), true⟩],
   [⟨"align", alignDesc, [("fastq", Source.workflowInput "reads")], none⟩],
   [⟨"aligned", Source.stepOutput "align" "bam", [], none⟩]⟩

/-- A workflow under construction holding one scalar-typed input `x`. -/
def scalarInW : WorkflowB := ⟨"scalarIn", [⟨"x", JType.prim "A", true⟩], [], []⟩

/-- A descriptor with one scalar input port `x`. -/
def scalarDesc : Descriptor := ⟨"SD", [⟨"x", JType.prim "A", true⟩], [("o", JType.prim "A")]⟩

/-! ### The claims -/

/-- Claim C1: for every Step carrying a Scatter Directive, each output Port's
effective (emitted) type is the descriptor-declared type wrapped in exactly
one additional array layer under the lock-step policy, and one layer per
scattered port under cross-product; concretely, the output `variants_split`
sourced from the scattered step `vc_gatk` and the sub-workflow output
`reports` sourced from the scattered step `fastqc` are array-typed. -/
theorem C1_scatter_wraps_output_types :
    (∀ (st : Step) (sd : ScatterDirective) (t : JType), st.scatter = some sd →
        sd.method = ScatterMethod.dot → effectiveOutputType st t = JType.array t)
    ∧ (∀ (st : Step) (sd : ScatterDirective) (t : JType), st.scatter = some sd →
        sd.method = ScatterMethod.cross →
        effectiveOutputType st t = wrapArrayN sd.ports.length t)
    ∧ outputType WGSSomaticGATKw "variants_split" = some (JType.array (JType.prim "Vcf"))
    ∧ outputType somatic_subpipeline "reports" = some (JType.array (JType.prim "Zip")) := by
  refine ⟨?_, ?_, rfl, rfl⟩
  · intro st sd t h hm
    obtain ⟨ps, m⟩ := sd
    dsimp only at hm
    subst hm
    unfold effectiveOutputType
    rw [h]
  · intro st sd t h hm
    obtain ⟨ps, m⟩ := sd
    dsimp only at hm
    subst hm
    unfold effectiveOutputType
    rw [h]

/-- Witness for C1: the scattered `vc_gatk` step (lock-step over
`intervals`) emits its declared `Vcf` output wrapped in one array layer. -/
theorem C1_scatter_wraps_output_types_witness :
    effectiveOutputType vcGatkStep (JType.prim "Vcf") = JType.array (JType.prim "Vcf") :=
  C1_scatter_wraps_output_types.1 vcGatkStep
    ⟨["intervals"], ScatterMethod.dot⟩ (JType.prim "Vcf") rfl rfl

/-- Claim C2: `finalize()` on a Workflow under construction runs the
whole-graph Validator, and whenever the graph has at least one violation it
fails with a single aggregated ValidationError enumerating every violation
found; a workflow with two independent problems (an unbound required input
and a type mismatch elsewhere) reports both in that one error. -/
theorem C2_finalize_aggregates_all_violations :
    (∀ (w : WorkflowB) (e : JErr) (es : List JErr), validateW w = e :: es →
        finalize w = Except.error ⟨e :: es⟩)
    ∧ finalize twoProblemW =
        Except.error ⟨[JErr.unknownSource "s1.x", JErr.typeError "s2.y"]⟩ := by
  refine ⟨?_, rfl⟩
  intro w e es h
  unfold finalize
  rw [h]

/-- Witness for C2: the two-problem workflow fails with one ValidationError
carrying both independent violations. -/
theorem C2_finalize_aggregates_all_violations_witness :
    finalize twoProblemW =
      Except.error ⟨[JErr.unknownSource "s1.x", JErr.typeError "s2.y"]⟩ :=
  C2_finalize_aggregates_all_violations.1 twoProblemW
    (JErr.unknownSource "s1.x") [JErr.typeError "s2.y"] rfl

/-- Claim C3: every finalized Workflow satisfies the DAG invariant — no Step
transitively consumes its own output — and both the WGSSomaticGATK graph
(tumor/normal -> vc_gatk -> vc_gatk_merge -> compressvcf -> sort_combined ->
uncompressvcf -> addbamstats) and its nested somatic_subpipeline finalize
under this invariant. -/
theorem C3_finalized_workflows_are_acyclic :
    (∀ w w' : WorkflowB, finalize w = Except.ok w' → isAcyclic w = true)
    ∧ finalize WGSSomaticGATKw = Except.ok WGSSomaticGATKw
    ∧ finalize somatic_subpipeline = Except.ok somatic_subpipeline :=
  ⟨fun w w' h => acyclic_of_validate_nil w (validate_nil_of_finalize_ok w w' h),
   finalize_top_ok, finalize_sub_ok⟩

/-- Witness for C3: the finalized WGSSomaticGATK graph is acyclic. -/
theorem C3_finalized_workflows_are_acyclic_witness :
    isAcyclic WGSSomaticGATKw = true :=
  C3_finalized_workflows_are_acyclic.1 WGSSomaticGATKw WGSSomaticGATKw finalize_top_ok

/-- Claim C4: producer/consumer type compatibility holds exactly when the
types are identical or the producer has type `T` and the consumer
`optional<T>`, with the scattered case comparing the producer's array element
type against the consumer port; there is no implicit coercion, and binding an
array-typed Source to a scalar-typed port without a Scatter Directive makes
`finalize()` fail with the TypeError as its single listed violation. -/
theorem C4_type_compatibility_exact :
    (∀ p c : JType, isCompatible p c = true ↔ (p = c ∨ c = JType.optional p))
    ∧ (∀ el pt : JType, scatteredOk (JType.array el) pt = isCompatible el pt)
    ∧ finalize alignNoScatterW = Except.error ⟨[JErr.typeError "align.fastq"]⟩ := by
  refine ⟨?_, fun el pt => rfl, rfl⟩
  intro p c
  by_cases h : p = c
  · subst h
    simp [isCompatible]
  · cases c <;> simp [isCompatible, h, eq_comm]

/-- Witness for C4: a `String` producer is accepted by an
`optional<String>` consumer. -/
theorem C4_type_compatibility_exact_witness :
    isCompatible (JType.prim "String") (JType.optional (JType.prim "String")) = true :=
  (C4_type_compatibility_exact.1 (JType.prim "String")
      (JType.optional (JType.prim "String"))).mpr (Or.inr rfl)

/-- Claim C5: for a Step declared with a lock-step Scatter Directive over
ports p1..pk (and otherwise well-formed arguments), compile-time checking
requires only that each scattered Source resolves to an array type — array
lengths are not represented, so length equality is never statically checked —
and the declaration fails with a ScatterError exactly when some named port is
not an input port of the descriptor or some scattered Source does not resolve
to an array type. -/
theorem C5_lockstep_scatter_check :
    ∀ (w : WorkflowB) (name : String) (d : Descriptor)
      (bs : List (String × Source)) (ps : List String),
      bs.find? (fun b => !(hasInput d b.fst)) = none →
      w.steps.any (fun st => st.name == name) = false →
      ((∃ p, declareStep w name d bs (some (ScatterInput.several ps)) =
          Except.error (JErr.scatterError p)) ↔
        ¬ ps.all (fun p => hasInput d p && sourceIsArray w bs p) = true) := by
  intro w name d bs ps h1 h2
  have hred : declareStep w name d bs (some (ScatterInput.several ps)) =
      (match scatterBadPort w d bs ⟨ps, ScatterMethod.dot⟩ with
       | some p => Except.error (JErr.scatterError p)
       | none =>
         match bindingsTypeErr w d ps bs with
         | some n => Except.error (JErr.typeError (name ++ "." ++ n))
         | none =>
           Except.ok { w with
             steps := w.steps ++ [⟨name, d, bs, some ⟨ps, ScatterMethod.dot⟩⟩] }) := by
    unfold declareStep
    rw [h1, h2]
    rfl
  rw [hred]
  cases hb : scatterBadPort w d bs ⟨ps, ScatterMethod.dot⟩ with
  | some p =>
    apply iff_of_true ⟨p, rfl⟩
    intro hall
    have hmem : p ∈ ps := List.mem_of_find?_eq_some hb
    have hp := List.find?_some hb
    have := List.all_eq_true.mp hall p hmem
    rw [this] at hp
    cases hp
  | none =>
    have hall : ps.all (fun p => hasInput d p && sourceIsArray w bs p) = true := by
      rw [List.all_eq_true]
      intro p hp
      have hnp := List.find?_eq_none.mp hb p hp
      simpa using hnp
    apply iff_of_false
    · rintro ⟨q, hq⟩
      cases hbt : bindingsTypeErr w d ps bs with
      | some n => rw [hbt] at hq; cases hq
      | none => rw [hbt] at hq; cases hq
    · intro hcon
      exact hcon hall

/-- Witness for C5: scattering port `x` whose Source is a scalar workflow
input fails with a ScatterError. -/
theorem C5_lockstep_scatter_check_witness :
    ∃ p, declareStep scalarInW "s" scalarDesc [("x", Source.workflowInput "x")]
        (some (ScatterInput.several ["x"])) = Except.error (JErr.scatterError p) :=
  (C5_lockstep_scatter_check scalarInW "s" scalarDesc
      [("x", Source.workflowInput "x")] ["x"] rfl rfl).mpr (by decide)

/-- Claim C7: `declareStep` called with a bindings map containing a name that
is not an input port of the given descriptor always fails with an
UnknownPortError naming such a port, and the Workflow under construction is
left unchanged by the failed call (no Workflow value is produced, so no
partial Step and no Connections are registered). -/
theorem C7_unknown_port_always_rejected :
    ∀ (w : WorkflowB) (name : String) (d : Descriptor)
      (bs : List (String × Source)) (sc : Option ScatterInput) (b : String × Source),
      b ∈ bs → hasInput d b.fst = false →
      (∃ n, hasInput d n = false ∧
          declareStep w name d bs sc = Except.error (JErr.unknownPort n))
      ∧ ∀ w' : WorkflowB, declareStep w name d bs sc ≠ Except.ok w' := by
  intro w name d bs sc b hmem hbad
  cases hf : bs.find? (fun b => !(hasInput d b.fst)) with
  | none =>
    exfalso
    have hnb := List.find?_eq_none.mp hf b hmem
    rw [hbad] at hnb
    exact hnb rfl
  | some b0 =>
    have hb0 : hasInput d b0.fst = false := by
      have := List.find?_some hf
      simpa using this
    have hds : declareStep w name d bs sc = Except.error (JErr.unknownPort b0.fst) := by
      unfold declareStep
      rw [hf]
    refine ⟨⟨b0.fst, hb0, hds⟩, ?_⟩
    intro w' hok
    rw [hds] at hok
    cases hok

/-- Witness for C7: binding the non-existent port `bogus` is rejected with
an UnknownPortError and produces no Workflow. -/
theorem C7_unknown_port_always_rejected_witness :
    (∃ n, hasInput scalarDesc n = false ∧
        declareStep scalarInW "s" scalarDesc [("bogus", Source.nullLit)] none =
          Except.error (JErr.unknownPort n))
    ∧ ∀ w' : WorkflowB,
        declareStep scalarInW "s" scalarDesc [("bogus", Source.nullLit)] none ≠
          Except.ok w' :=
  C7_unknown_port_always_rejected scalarInW "s" scalarDesc
    [("bogus", Source.nullLit)] none ("bogus", Source.nullLit) (by simp) rfl

/-- Claim C6: a finalized Workflow can serve as a Step Descriptor: its
declared input ports become the descriptor's input ports and its declared
output ports become the descriptor's output ports; concretely, the steps
`tumor` and `normal` of the parent graph expose exactly the outputs `out`,
`reports`, `depth_of_coverage`, `summary`, `gene_summary`, `region_summary`
of the somatic_subpipeline. -/
theorem C6_workflow_as_step_descriptor :
    (∀ (w : WorkflowB) (d : Descriptor), workflowAsDescriptor w = Except.ok d →
        d.inputs = w.inputs ∧ d.outputs.map Prod.fst = w.outputs.map OutputDecl.name)
    ∧ workflowAsDescriptor somatic_subpipeline = Except.ok somaticSubDescriptor
    ∧ stepOutputNames WGSSomaticGATKw "tumor" =
        some ["out", "reports", "depth_of_coverage", "summary", "gene_summary",
              "region_summary"]
    ∧ stepOutputNames WGSSomaticGATKw "normal" =
        some ["out", "reports", "depth_of_coverage", "summary", "gene_summary",
              "region_summary"] := by
  refine ⟨?_, subDescriptor_ok, rfl, rfl⟩
  intro w d h
  unfold workflowAsDescriptor at h
  cases hm : mapExc (outputEntry w) w.outputs with
  | error e => rw [hm] at h; cases h
  | ok outs =>
    rw [hm] at h
    injection h with h'
    rw [← h']
    exact ⟨rfl, mapExc_name_fst w w.outputs outs hm⟩

/-- Witness for C6: the somatic_subpipeline served as a descriptor keeps its
declared input ports and output-port names. -/
theorem C6_workflow_as_step_descriptor_witness :
    somaticSubDescriptor.inputs = somatic_subpipeline.inputs ∧
    somaticSubDescriptor.outputs.map Prod.fst =
      somatic_subpipeline.outputs.map OutputDecl.name :=
  C6_workflow_as_step_descriptor.1 somatic_subpipeline somaticSubDescriptor
    subDescriptor_ok

/-- Claim C8: for every validated Workflow and each supported target format,
emitting the Workflow and structurally parsing the document back reproduces
the same set of Step names, port bindings and scatter directives. -/
theorem C8_roundtrip_emission :
    ∀ (fmt : Format) (w w' : WorkflowB), finalize w = Except.ok w' →
      parseImage fmt (emit fmt w) = some (structuralImage w) := by
  intro fmt w w' _
  show (if stepsKey fmt = stepsKey fmt then
          mapOpt (parseStep fmt) (w.steps.map (emitStep fmt))
        else none) = some (structuralImage w)
  rw [if_pos rfl,
    mapOpt_map (parseStep fmt) (emitStep fmt)
      (fun st => (st.name, st.bindings, st.scatter)) (parseStep_emit fmt) w.steps]
  rfl

/-- Witness for C8: the emitted CWL-format document of the validated
WGSSomaticGATK graph parses back to its structural image. -/
theorem C8_roundtrip_emission_witness :
    parseImage Format.cwl (emit Format.cwl WGSSomaticGATKw) =
      some (structuralImage WGSSomaticGATKw) :=
  C8_roundtrip_emission Format.cwl WGSSomaticGATKw WGSSomaticGATKw finalize_top_ok

/-- Claim C9: a Connection Source may reference a Step object itself rather
than a named output port; such a Source resolves to the Step's unique output
port, and resolution is well-defined exactly when the referenced Step's
descriptor has exactly one output port — as with `bam=w.merge_and_mark` and
`cutadapt_adapter=w.getfastqc_adapters` in the sub-workflow. -/
theorem C9_step_reference_resolution :
    (∀ (w : WorkflowB) (s : String) (st : Step), lookupStep w s = some st →
        ((∃ t, resolveSource w (Source.stepRef s) = Except.ok t) ↔
          st.descriptor.outputs.length = 1))
    ∧ (∀ (w : WorkflowB) (s : String) (st : Step) (o : String × JType),
        lookupStep w s = some st → st.descriptor.outputs = [o] →
        resolveSource w (Source.stepRef s) = Except.ok (effectiveOutputType st o.snd))
    ∧ resolveSource somatic_subpipeline (Source.stepRef "merge_and_mark") =
        Except.ok (JType.prim "Bam")
    ∧ resolveSource somatic_subpipeline (Source.stepRef "getfastqc_adapters") =
        Except.ok (JType.array (JType.prim "String")) := by
  refine ⟨?_, ?_, rfl, rfl⟩
  · intro w s st h
    simp only [resolveSource, h]
    cases houts : st.descriptor.outputs with
    | nil => simp [houts]
    | cons o t =>
      cases t with
      | nil => simp [houts]
      | cons o2 t2 => simp [houts]
  · intro w s st o h ho
    simp only [resolveSource, h, ho]

/-- Witness for C9: the reference `bam=w.merge_and_mark` resolves, the
referenced descriptor having exactly one output port. -/
theorem C9_step_reference_resolution_witness :
    ∃ t, resolveSource somatic_subpipeline (Source.stepRef "merge_and_mark") =
      Except.ok t :=
  (C9_step_reference_resolution.1 somatic_subpipeline "merge_and_mark"
      mergeAndMarkStep rfl).mpr rfl

/-- Claim C10: the scatter argument of a step declaration accepts either a
single port name as a bare string or a list of port names, and declaring a
step with the bare string `p` produces exactly the same result — the same
scatter plan, effective port types and registered Step — as declaring it
with the singleton list `[p]`. -/
theorem C10_scatter_string_equals_singleton_list :
    ∀ (w : WorkflowB) (name : String) (d : Descriptor)
      (bs : List (String × Source)) (p : String),
      normalizeScatter (ScatterInput.single p) =
          normalizeScatter (ScatterInput.several [p])
      ∧ declareStep w name d bs (some (ScatterInput.single p)) =
          declareStep w name d bs (some (ScatterInput.several [p])) :=
  fun _ _ _ _ _ => ⟨rfl, rfl⟩

end Janis
